import Mathlib

/-!
# Verification of the slotcartel mask-geometry core

Shallow embedding of the geometric core of the face-mask creation tool:
coordinate conversion (`src/utils/coordinates.ts`), landmark validation,
triangulation-table validation (`src/utils/triangulation.ts`), the canvas
mask-boundary builder (`src/components/MaskCompositor.tsx`), the raw-SVG
mask-buffer builder (`services/maskProcessor.ts`), the texture cache and
single-flight generator (`src/services/textureGenerator.ts`), and the prompt
processor (`src/services/materialSystem.ts`).

JavaScript numbers are modelled as exact rationals wherever the code only
meets finite values; where the code manipulates `Infinity`/`NaN` explicitly
(bounding-box accumulators, `validateLandmarks`' `isNaN` checks) we use the
`JSNum` type that carries those special values with IEEE comparison rules.
-/

namespace SlotcartelMask

/-- A validated landmark: finite normalized coordinates, as consumed by the
geometry pipeline (`{x, y, z}` in `coordinates.ts`). -/
structure Landmark where
  x : ℚ
  y : ℚ
  z : ℚ
  deriving DecidableEq, Repr, Inhabited

/-- A three.js `Vector3` world-space point. -/
structure Vec3 where
  x : ℚ
  y : ℚ
  z : ℚ
  deriving DecidableEq, Repr, Inhabited

/-- `normalizedToWorld` from `coordinates.ts`:
`((n.x - 0.5) * s, -(n.y - 0.5) * s, n.z * s * 0.5)`. -/
def normalizedToWorld (n : Landmark) (faceScale : ℚ) : Vec3 :=
  { x := (n.x - 1/2) * faceScale
    y := -(n.y - 1/2) * faceScale
    z := n.z * faceScale * (1/2) }

/-- `worldToNormalized` from `coordinates.ts`:
`(w.x / s + 0.5, -(w.y / s) + 0.5, w.z / (s * 0.5))`. -/
def worldToNormalized (w : Vec3) (faceScale : ℚ) : Landmark :=
  { x := w.x / faceScale + 1/2
    y := -(w.y / faceScale) + 1/2
    z := w.z / (faceScale * (1/2)) }

/-! ## JavaScript number model for code that meets `Infinity` / `NaN` -/

/-- A JavaScript `number` as far as this code can observe it: `NaN`, the two
infinities, or a finite value (modelled exactly as a rational). -/
inductive JSNum where
  | nan : JSNum
  | inf : JSNum
  | negInf : JSNum
  | fin (q : ℚ) : JSNum
  deriving DecidableEq, Repr, Inhabited

namespace JSNum

/-- JavaScript `isNaN`. -/
def isNaNb : JSNum → Bool
  | .nan => true
  | _ => false

/-- JavaScript `<=` comparison (false whenever either side is `NaN`). -/
def jsLe : JSNum → JSNum → Bool
  | .nan, _ => false
  | _, .nan => false
  | .negInf, _ => true
  | _, .inf => true
  | .inf, _ => false
  | .fin _, .negInf => false
  | .fin p, .fin q => decide (p ≤ q)

/-- JavaScript `<` comparison (false whenever either side is `NaN`). -/
def jsLt : JSNum → JSNum → Bool
  | .nan, _ => false
  | _, .nan => false
  | .inf, _ => false
  | _, .negInf => false
  | .negInf, _ => true
  | _, .inf => true
  | .fin p, .fin q => decide (p < q)

/-- JavaScript `Math.min` (NaN-propagating). -/
def jsMin : JSNum → JSNum → JSNum
  | .nan, _ => .nan
  | _, .nan => .nan
  | .negInf, _ => .negInf
  | _, .negInf => .negInf
  | .inf, b => b
  | a, .inf => a
  | .fin p, .fin q => .fin (min p q)

/-- JavaScript `Math.max` (NaN-propagating). -/
def jsMax : JSNum → JSNum → JSNum
  | .nan, _ => .nan
  | _, .nan => .nan
  | .inf, _ => .inf
  | _, .inf => .inf
  | .negInf, b => b
  | a, .negInf => a
  | .fin p, .fin q => .fin (max p q)

/-- JavaScript subtraction on the observable values (`∞ - ∞ = NaN`, etc.). -/
def jsSub : JSNum → JSNum → JSNum
  | .nan, _ => .nan
  | _, .nan => .nan
  | .inf, .inf => .nan
  | .inf, _ => .inf
  | .negInf, .negInf => .nan
  | .negInf, _ => .negInf
  | .fin _, .inf => .negInf
  | .fin _, .negInf => .inf
  | .fin p, .fin q => .fin (p - q)

/-- JavaScript division on the observable values (finite `p / 0` gives a
signed infinity, `0 / 0` gives `NaN`, finite over infinite gives `0`). -/
def jsDiv : JSNum → JSNum → JSNum
  | .nan, _ => .nan
  | _, .nan => .nan
  | .inf, .inf => .nan
  | .inf, .negInf => .nan
  | .negInf, .inf => .nan
  | .negInf, .negInf => .nan
  | .inf, .fin q => if q < 0 then .negInf else .inf
  | .negInf, .fin q => if q < 0 then .inf else .negInf
  | .fin _, .inf => .fin 0
  | .fin _, .negInf => .fin 0
  | .fin p, .fin q =>
      if q = 0 then (if p = 0 then .nan else if p < 0 then .negInf else .inf)
      else .fin (p / q)

end JSNum

/-- A raw (unvalidated) landmark, as seen by `validateLandmarks`: each
coordinate is an arbitrary JavaScript number. -/
structure RawLandmark where
  x : JSNum
  y : JSNum
  z : JSNum
  deriving DecidableEq, Repr, Inhabited

/-- One coordinate's share of the per-point check inside `validateLandmarks`:
`typeof v === 'number' && !isNaN(v) && v >= lo && v <= hi`
(the `typeof` test is always true in this model). -/
def coordCheck (lo hi : ℚ) (a : JSNum) : Bool :=
  (!JSNum.isNaNb a) && JSNum.jsLe (.fin lo) a && JSNum.jsLe a (.fin hi)

/-- The per-point check inside `validateLandmarks` (`coordinates.ts`):
x and y against `[0,1]`, z against `[-1,1]`. -/
def landmarkPointValid (l : RawLandmark) : Bool :=
  coordCheck 0 1 l.x && coordCheck 0 1 l.y && coordCheck (-1) 1 l.z

/-- `validateLandmarks` from `coordinates.ts`: false for a non-array or empty
input, otherwise `landmarks.every(landmarkPointValid)`. -/
def validateLandmarks (landmarks : List RawLandmark) : Bool :=
  if landmarks.isEmpty then false
  else landmarks.all landmarkPointValid

/-- Spec-side reading of a well-formed point: every coordinate finite, with
`x, y ∈ [0, 1]` and `z ∈ [-1, 1]`. -/
def LandmarkInRange (l : RawLandmark) : Prop :=
  (∃ q : ℚ, l.x = .fin q ∧ 0 ≤ q ∧ q ≤ 1) ∧
  (∃ q : ℚ, l.y = .fin q ∧ 0 ≤ q ∧ q ≤ 1) ∧
  (∃ q : ℚ, l.z = .fin q ∧ -1 ≤ q ∧ q ≤ 1)

theorem coordCheck_iff (lo hi : ℚ) (a : JSNum) :
    coordCheck lo hi a = true ↔ ∃ q : ℚ, a = .fin q ∧ lo ≤ q ∧ q ≤ hi := by
  cases a <;> simp [coordCheck, JSNum.isNaNb, JSNum.jsLe]

theorem landmarkPointValid_iff (l : RawLandmark) :
    landmarkPointValid l = true ↔ LandmarkInRange l := by
  simp only [landmarkPointValid, LandmarkInRange, Bool.and_eq_true, coordCheck_iff]
  tauto

/-! ## Triangulation table (`src/utils/triangulation.ts`) -/

/-- `FACE_MESH_TRIANGLES`: the static triangle-index table, transcribed
verbatim (same rows, same order). -/
def FACE_MESH_TRIANGLES : List (List ℤ) := [
  -- Lips
  [61, 146, 91], [91, 181, 84], [84, 17, 314], [314, 405, 321], [321, 375, 291],
  [291, 61, 146], [78, 95, 88], [88, 178, 87], [87, 14, 317], [317, 402, 318],
  [318, 324, 308], [308, 78, 95], [78, 191, 80], [80, 81, 82], [82, 13, 312],
  [312, 311, 310], [310, 415, 308], [308, 324, 318], [318, 402, 317], [317, 14, 87],
  [87, 178, 88], [88, 95, 78], [80, 191, 78], [82, 81, 80], [312, 13, 82],
  [310, 311, 312], [415, 310, 308],
  -- Right eye
  [362, 382, 381], [381, 380, 374], [374, 373, 390], [390, 249, 263], [263, 466, 388],
  [388, 387, 386], [386, 385, 384], [384, 398, 362], [398, 384, 385], [385, 386, 387],
  [387, 388, 466], [466, 263, 249], [249, 390, 373], [373, 374, 380], [380, 381, 382],
  [382, 362, 398],
  -- Left eye
  [33, 7, 163], [163, 144, 145], [145, 153, 154], [154, 155, 133], [133, 33, 246],
  [246, 161, 160], [160, 159, 158], [158, 157, 173], [173, 157, 158], [158, 159, 160],
  [160, 161, 246], [246, 33, 133], [133, 155, 154], [154, 153, 145], [145, 144, 163],
  [163, 7, 33],
  -- Right eyebrow
  [276, 283, 282], [282, 295, 285], [285, 295, 282], [282, 283, 276], [283, 276, 300],
  [300, 293, 334], [334, 296, 336], [336, 285, 295], [295, 282, 285], [285, 336, 334],
  [334, 293, 300], [300, 276, 283],
  -- Left eyebrow
  [46, 53, 52], [52, 65, 55], [55, 65, 52], [52, 53, 46], [53, 46, 70],
  [70, 63, 105], [105, 66, 107], [107, 55, 65], [65, 52, 55], [55, 107, 105],
  [105, 63, 70], [70, 46, 53],
  -- Nose
  [1, 2, 98], [98, 97, 2], [2, 326, 327], [327, 294, 326], [168, 6, 197],
  [197, 195, 5], [5, 4, 1], [4, 5, 195], [195, 197, 6], [6, 168, 8],
  [8, 9, 168], [9, 8, 42], [42, 41, 38], [38, 37, 40], [40, 39, 37],
  [37, 38, 41], [41, 42, 8], [8, 168, 9], [168, 197, 195], [195, 5, 4],
  [4, 1, 2], [2, 97, 98], [98, 2, 326], [326, 294, 327], [327, 326, 294],
  -- Face contour
  [10, 338, 297], [297, 338, 337], [337, 299, 333], [333, 299, 298], [298, 337, 338],
  [338, 10, 297], [109, 10, 338], [338, 337, 299], [299, 333, 298], [298, 338, 337],
  [337, 338, 10], [10, 109, 338], [67, 109, 10], [10, 338, 337], [337, 299, 333],
  [333, 298, 337], [337, 338, 298], [298, 338, 109], [109, 67, 10],
  -- Cheeks and face sides
  [127, 234, 93], [93, 234, 137], [137, 234, 177], [177, 234, 215], [215, 234, 177],
  [177, 215, 138], [138, 215, 214], [214, 215, 177], [177, 138, 214], [214, 138, 135],
  [135, 138, 177], [177, 137, 135], [135, 137, 234], [234, 127, 93], [93, 137, 234],
  -- Additional face triangles for complete coverage
  [132, 58, 172], [172, 136, 150], [150, 149, 176], [176, 148, 152], [152, 377, 400],
  [400, 378, 379], [379, 365, 397], [397, 288, 361], [361, 323, 454], [454, 356, 389],
  [389, 200, 421], [421, 428, 262], [262, 369, 396], [396, 175, 171], [171, 32, 132]]

/-- `getFaceTriangles` from `triangulation.ts`: flattens the triple table
into one index list. -/
def getFaceTriangles : List ℤ :=
  FACE_MESH_TRIANGLES.foldl (fun acc t => acc ++ t) []

/-- `validateTriangles` from `triangulation.ts`:
`triangles.every(i => i >= 0 && i < landmarkCount)`. -/
def validateTriangles (triangles : List ℤ) (landmarkCount : ℤ) : Bool :=
  triangles.all fun index => decide (0 ≤ index) && decide (index < landmarkCount)

/-! ## Mask boundary construction

`buildMaskPath` / `addHoleCCW` from `MaskCompositor.tsx` build a `Path2D`;
we record the sequence of path commands it receives. Ellipse angles are
recorded in units of π radians (the source passes `0, 0, Math.PI * 2`,
recorded here as `0, 0, 2`). -/

/-- One `Path2D` drawing command. -/
inductive PathCmd where
  | moveTo (x y : ℚ) : PathCmd
  | lineTo (x y : ℚ) : PathCmd
  | arcTo (x1 y1 x2 y2 r : ℚ) : PathCmd
  | ellipse (cx cy rx ry rotPi startPi endPi : ℚ) (ccw : Bool) : PathCmd
  | closePath : PathCmd
  deriving DecidableEq, Repr

/-- Landmark indices used by the compositor (`LM` in `MaskCompositor.tsx`). -/
def LM_TOP_HEAD : ℕ := 10
/-- `LM.CHIN`. -/
def LM_CHIN : ℕ := 152
/-- `LM.LEFT_EAR`. -/
def LM_LEFT_EAR : ℕ := 234
/-- `LM.RIGHT_EAR`. -/
def LM_RIGHT_EAR : ℕ := 454

/-- Left-eye cutout indices (`LEFT_EYE`, identical in `MaskCompositor.tsx`
and `services/maskProcessor.ts`). -/
def LEFT_EYE : List ℕ :=
  [33, 246, 161, 160, 159, 158, 157, 173, 133, 155, 154, 153, 145, 144, 163, 7]

/-- Right-eye cutout indices (`RIGHT_EYE`). -/
def RIGHT_EYE : List ℕ :=
  [362, 398, 384, 385, 386, 387, 388, 466, 263, 249, 390, 373, 374, 380, 381, 382]

/-- Mouth landmark indices (`MOUTH_PTS`): left corner, top, right corner,
bottom. -/
def MOUTH_PTS : List ℕ := [78, 13, 308, 14]

/-- `px(lm, i, W) = lm[i].x * W` (indexing a list; the source indexes a
JavaScript array its callers guarantee to have ≥ 468 entries). -/
def px (lm : List Landmark) (i : ℕ) (W : ℚ) : ℚ := (lm.getD i default).x * W

/-- `py(lm, i, H) = lm[i].y * H`. -/
def py (lm : List Landmark) (i : ℕ) (H : ℚ) : ℚ := (lm.getD i default).y * H

/-- `addHoleCCW` from `MaskCompositor.tsx`: reverses the index list, then
`moveTo` the first vertex, `lineTo` the rest, `closePath`. (The source
faults on an empty index list; its callers always pass the fixed non-empty
eye contours.) -/
def addHoleCCW (indices : List ℕ) (lm : List Landmark) (W H : ℚ) : List PathCmd :=
  match indices.reverse with
  | [] => []
  | r0 :: rest =>
      PathCmd.moveTo (px lm r0 W) (py lm r0 H) ::
        rest.map (fun i => PathCmd.lineTo (px lm i W) (py lm i H)) ++ [PathCmd.closePath]

/-- `buildMaskPath` from `MaskCompositor.tsx`: rounded-rectangle outer
boundary, two reversed-order eye holes, and a mouth ellipse (full turn,
counter-clockwise flag set). -/
def buildMaskPath (lm : List Landmark) (W H : ℚ) : List PathCmd :=
  let topY := py lm LM_TOP_HEAD H
  let chinY := py lm LM_CHIN H
  let leftX := px lm LM_LEFT_EAR W
  let rightX := px lm LM_RIGHT_EAR W
  let centerX := (leftX + rightX) / 2
  let faceW := rightX - leftX
  let faceH := chinY - topY
  let topMask := topY
  let bottomMask := chinY + faceH * (1/2)
  let maskW := faceW * (65/100)
  let left := centerX - maskW
  let right := centerX + maskW
  let cornerR := faceW * (25/100)
  let outer : List PathCmd :=
    [PathCmd.moveTo (left + cornerR) topMask,
     PathCmd.lineTo (right - cornerR) topMask,
     PathCmd.arcTo right topMask right (topMask + cornerR) cornerR,
     PathCmd.lineTo right (bottomMask - cornerR),
     PathCmd.arcTo right bottomMask (right - cornerR) bottomMask cornerR,
     PathCmd.lineTo (left + cornerR) bottomMask,
     PathCmd.arcTo left bottomMask left (bottomMask - cornerR) cornerR,
     PathCmd.lineTo left (topMask + cornerR),
     PathCmd.arcTo left topMask (left + cornerR) topMask cornerR,
     PathCmd.closePath]
  let mLeft := (lm.getD (MOUTH_PTS.getD 0 0) default).x * W
  let mTop := (lm.getD (MOUTH_PTS.getD 1 0) default).y * H
  let mRight := (lm.getD (MOUTH_PTS.getD 2 0) default).x * W
  let mBottom := (lm.getD (MOUTH_PTS.getD 3 0) default).y * H
  let mCX := (mLeft + mRight) / 2
  let mCY := (mTop + mBottom) / 2
  let mRX := (mRight - mLeft) * (35/100)
  let mRY := (mBottom - mTop) * (45/100)
  outer ++ addHoleCCW LEFT_EYE lm W H ++ addHoleCCW RIGHT_EYE lm W H ++
    [PathCmd.ellipse mCX mCY mRX mRY 0 0 2 true]

/-- Extracts, per `moveTo`-delimited sub-path, the polygon vertices visited
by `moveTo`/`lineTo` commands (curve commands contribute no polygon
vertex). -/
def subpathPolysAux : List PathCmd → List (ℚ × ℚ) → List (List (ℚ × ℚ))
  | [], cur => [cur.reverse]
  | PathCmd.moveTo x y :: rest, cur => cur.reverse :: subpathPolysAux rest [(x, y)]
  | PathCmd.lineTo x y :: rest, cur => subpathPolysAux rest ((x, y) :: cur)
  | PathCmd.arcTo _ _ _ _ _ :: rest, cur => subpathPolysAux rest cur
  | PathCmd.ellipse _ _ _ _ _ _ _ _ :: rest, cur => subpathPolysAux rest cur
  | PathCmd.closePath :: rest, cur => subpathPolysAux rest cur

/-- The polygon vertex lists of a command sequence, one per sub-path, in
order of appearance. -/
def subpathPolys (cmds : List PathCmd) : List (List (ℚ × ℚ)) :=
  (subpathPolysAux cmds []).drop 1

/-- The `(rx, ry)` radii of the first `ellipse` command in a path, if any. -/
def firstEllipseRadii : List PathCmd → Option (ℚ × ℚ)
  | [] => none
  | PathCmd.ellipse _ _ rx ry _ _ _ _ :: _ => some (rx, ry)
  | _ :: rest => firstEllipseRadii rest

/-! ## Raw-SVG mask-buffer builder (`services/maskProcessor.ts`) -/

/-- The landmarks of one eye polygon as emitted by `generateMaskBuffer`:
`indices.map(idx => landmarks[idx] ? (x*W, y*H) : (0,0))`, in the stored
(non-reversed) order. -/
def svgEyePoints (indices : List ℕ) (lm : List Landmark) (W H : ℚ) : List (ℚ × ℚ) :=
  indices.map fun idx =>
    match lm.get? idx with
    | some pt => (pt.x * W, pt.y * H)
    | none => (0, 0)

/-- The mouth ellipse of `generateMaskBuffer`: center at the midpoint of the
mouth-corner pixels, radii floored at 10 via `Math.max(..., 10)`. The four
accesses use `landmarks[i]?.x * W || 0` (0 when the landmark is missing,
which also maps an exact 0 to 0). Returns `(cx, cy, rx, ry)`. -/
def svgMouthEllipse (lm : List Landmark) (W H : ℚ) : ℚ × ℚ × ℚ × ℚ :=
  let mLeft := match lm.get? (MOUTH_PTS.getD 0 0) with
    | some pt => pt.x * W
    | none => 0
  let mTop := match lm.get? (MOUTH_PTS.getD 1 0) with
    | some pt => pt.y * H
    | none => 0
  let mRight := match lm.get? (MOUTH_PTS.getD 2 0) with
    | some pt => pt.x * W
    | none => 0
  let mBottom := match lm.get? (MOUTH_PTS.getD 3 0) with
    | some pt => pt.y * H
    | none => 0
  let mCX := (mLeft + mRight) / 2
  let mCY := (mTop + mBottom) / 2
  let mRX := max ((mRight - mLeft) * (35/100)) 10
  let mRY := max ((mBottom - mTop) * (45/100)) 10
  (mCX, mCY, mRX, mRY)

/-! ## Bounding box and optimal face scale (`coordinates.ts`)

`calculateFaceBoundingBox` initializes its accumulators to
`Infinity`/`-Infinity`, so the accumulators live in `JSNum`. -/

/-- The six running min/max accumulators of `calculateFaceBoundingBox`. -/
structure BBoxAcc where
  minX : JSNum
  maxX : JSNum
  minY : JSNum
  maxY : JSNum
  minZ : JSNum
  maxZ : JSNum
  deriving DecidableEq, Repr

/-- One `forEach` step of `calculateFaceBoundingBox`. -/
def bboxStep (acc : BBoxAcc) (l : Landmark) : BBoxAcc :=
  { minX := JSNum.jsMin acc.minX (.fin l.x)
    maxX := JSNum.jsMax acc.maxX (.fin l.x)
    minY := JSNum.jsMin acc.minY (.fin l.y)
    maxY := JSNum.jsMax acc.maxY (.fin l.y)
    minZ := JSNum.jsMin acc.minZ (.fin l.z)
    maxZ := JSNum.jsMax acc.maxZ (.fin l.z) }

/-- The initial accumulator: `minX = Infinity, maxX = -Infinity, …`. -/
def bboxInit : BBoxAcc :=
  { minX := .inf, maxX := .negInf, minY := .inf, maxY := .negInf
    minZ := .inf, maxZ := .negInf }

/-- The result record of `calculateFaceBoundingBox`. -/
structure FaceBBox where
  minX : JSNum
  maxX : JSNum
  minY : JSNum
  maxY : JSNum
  minZ : JSNum
  maxZ : JSNum
  width : JSNum
  height : JSNum
  depth : JSNum
  deriving DecidableEq, Repr

/-- `calculateFaceBoundingBox` from `coordinates.ts`. -/
def calculateFaceBoundingBox (landmarks : List Landmark) : FaceBBox :=
  let acc := landmarks.foldl bboxStep bboxInit
  { minX := acc.minX, maxX := acc.maxX, minY := acc.minY, maxY := acc.maxY
    minZ := acc.minZ, maxZ := acc.maxZ
    width := JSNum.jsSub acc.maxX acc.minX
    height := JSNum.jsSub acc.maxY acc.minY
    depth := JSNum.jsSub acc.maxZ acc.minZ }

/-- `calculateOptimalFaceScale` from `coordinates.ts`:
`maxDimension > 0 ? targetSize / maxDimension : targetSize`. -/
def calculateOptimalFaceScale (landmarks : List Landmark) (targetSize : ℚ) : JSNum :=
  let bbox := calculateFaceBoundingBox landmarks
  let maxDimension := JSNum.jsMax bbox.width bbox.height
  if JSNum.jsLt (.fin 0) maxDimension then JSNum.jsDiv (.fin targetSize) maxDimension
  else .fin targetSize

/-! ## Texture cache and single-flight generator (`textureGenerator.ts`)

The JavaScript `Map<string, {data, timestamp}>` is modelled as a list of
`(key, timestamp, data)` entries in insertion order, which is the order
`Map` iteration and `Array.from(entries)` observe. -/

/-- The cache contents: entries in insertion order. -/
abbrev Cache (V : Type) : Type := List (String × ℤ × V)

/-- `TextureCache.maxSize`. -/
def cacheMaxSize : ℕ := 20

/-- `TextureCache.ttl` (24 hours in milliseconds). -/
def cacheTtl : ℤ := 24 * 60 * 60 * 1000

/-- `Map.set`: overwrite in place when the key exists (keeping its
position), otherwise append. -/
def mapSet {V : Type} (c : Cache V) (key : String) (ts : ℤ) (v : V) : Cache V :=
  if c.any (fun e => e.1 = key) then
    c.map fun e => if e.1 = key then (key, ts, v) else e
  else c ++ [(key, ts, v)]

/-- `Map.delete key`: removes the entry with that key. -/
def mapDelete {V : Type} (c : Cache V) (key : String) : Cache V :=
  c.filter fun e => ¬(e.1 = key)

/-- The key evicted by `TextureCache.set`:
`Array.from(entries).sort((a, b) => a.timestamp - b.timestamp)[0][0]`.
The first element of that stable sort is the entry with the least
timestamp, earliest-inserted among ties, which this fold computes. -/
def oldestKey {V : Type} (c : Cache V) : String :=
  match c with
  | [] => ""
  | e0 :: rest => (rest.foldl (fun best e => if e.2.1 < best.2.1 then e else best) e0).1

/-- `TextureCache.set`: evict the oldest entry when `size >= maxSize`, then
`Map.set` the new entry with the current timestamp. -/
def cacheSet {V : Type} (c : Cache V) (key : String) (now : ℤ) (v : V) : Cache V :=
  mapSet (if cacheMaxSize ≤ c.length then mapDelete c (oldestKey c) else c) key now v

/-- `TextureCache.get`: a miss returns `none`; an entry older than the TTL
is deleted and reported as a miss; otherwise the stored data is returned.
Returns the value (if any) and the possibly-updated cache. -/
def cacheGet {V : Type} (c : Cache V) (key : String) (now : ℤ) : Option V × Cache V :=
  match c.find? (fun e => e.1 = key) with
  | none => (none, c)
  | some e => if cacheTtl < now - e.2.1 then (none, mapDelete c key) else (some e.2.2, c)

/-- Fold a list of `(key, timestamp, value)` insertions through
`cacheSet`. -/
def cacheSetAll {V : Type} (c : Cache V) (ops : List (String × ℤ × V)) : Cache V :=
  ops.foldl (fun acc e => cacheSet acc e.1 e.2.1 e.2.2) c

/-- A texture-generation request (`TextureGenerationRequest`): the fields
that determine the cache key. -/
structure TexRequest where
  prompt : String
  style : Option String
  quality : Option String
  deriving DecidableEq, Repr

/-- `TextureCache.generateKey`: the template string interpolating
`prompt`, `style`, `quality` separated by underscores; an absent optional
field prints as the string "undefined". -/
def generateKey (r : TexRequest) : String :=
  r.prompt ++ "_" ++ r.style.getD "undefined" ++ "_" ++ r.quality.getD "undefined"

/-- The generator state observable across `await` points: the cache and the
`isGenerating` single-flight flag. -/
structure GenState (V : Type) where
  cache : Cache V
  isGenerating : Bool

/-- `AITextureGenerator.generate`, run to completion from a call-time state
snapshot. `now` is the clock reading, `ai` the outcome of `callAIModel`
(an external HTTP call, already including its internal retries). Returns
the call's result and the state after the call returns or throws:
cache hits return immediately; otherwise a set `isGenerating` flag throws
`Generation already in progress`; otherwise the model is called with the
flag set, the result cached on success, and the flag cleared in the
`finally` block. -/
def generate {V : Type} (st : GenState V) (req : TexRequest) (now : ℤ)
    (ai : Except String V) : Except String V × GenState V :=
  let key := generateKey req
  let looked := cacheGet st.cache key now
  match looked.1 with
  | some cached => (Except.ok cached, { st with cache := looked.2 })
  | none =>
      if st.isGenerating then
        (Except.error "Generation already in progress", { st with cache := looked.2 })
      else
        match ai with
        | Except.ok v =>
            (Except.ok v, { cache := cacheSet looked.2 key now v, isGenerating := false })
        | Except.error e =>
            (Except.error e, { cache := looked.2, isGenerating := false })

/-! ## Prompt processor (`materialSystem.ts`, `PromptProcessor`) -/

/-- `PromptConfig.style` selector values. -/
inductive PStyle where
  | realistic | artistic | fantasy | cyberpunk | steampunk | minimalist
  deriving DecidableEq, Repr

/-- `PromptConfig.quality` selector values. -/
inductive PQuality where
  | low | medium | high | ultra
  deriving DecidableEq, Repr

/-- `PromptConfig.lighting` selector values. -/
inductive PLighting where
  | studio | natural | dramatic | soft
  deriving DecidableEq, Repr

/-- `PromptConfig.material` selector values. -/
inductive PMaterial where
  | fabric | metal | ceramic | plastic | leather | wood
  deriving DecidableEq, Repr

/-- `PromptConfig.detailLevel` selector values. -/
inductive PDetail where
  | low | medium | high | extreme
  deriving DecidableEq, Repr

/-- `STYLE_PRESETS`. -/
def STYLE_PRESETS : PStyle → String
  | .realistic => "photorealistic, 4K, professional photography, detailed, high quality"
  | .artistic => "artistic rendering, painted, stylized, creative, unique"
  | .fantasy => "fantasy art, magical, mystical, ethereal, otherworldly"
  | .cyberpunk => "cyberpunk, neon, futuristic, high-tech, glowing"
  | .steampunk => "steampunk, vintage, mechanical, brass, gears"
  | .minimalist => "minimalist, clean, simple, elegant, modern"

/-- `QUALITY_PRESETS`. -/
def QUALITY_PRESETS : PQuality → String
  | .low => "512x512 resolution"
  | .medium => "1024x1024 resolution, good quality"
  | .high => "2048x2048 resolution, excellent quality, highly detailed"
  | .ultra => "4096x4096 resolution, ultra high quality, extreme detail"

/-- `LIGHTING_PRESETS`. -/
def LIGHTING_PRESETS : PLighting → String
  | .studio => "studio lighting, professional lighting setup, key light, fill light"
  | .natural => "natural lighting, daylight, soft shadows, outdoor"
  | .dramatic => "dramatic lighting, high contrast, moody, cinematic"
  | .soft => "soft lighting, diffused, gentle shadows, flattering"

/-- `MATERIAL_PRESETS` (the prompt-material table in the prompt-processing
half of `materialSystem.ts`). -/
def MATERIAL_PRESETS : PMaterial → String
  | .fabric => "fabric texture, cloth, woven, soft appearance"
  | .metal => "metallic, shiny, reflective, polished metal"
  | .ceramic => "ceramic, glossy, smooth, porcelain-like"
  | .plastic => "plastic, matte, synthetic, uniform finish"
  | .leather => "leather texture, supple, rich, aged patina"
  | .wood => "wood texture, natural grain, warm tones"

/-- `DETAIL_PRESETS`. -/
def DETAIL_PRESETS : PDetail → String
  | .low => "simple design, minimal details"
  | .medium => "moderate details, balanced complexity"
  | .high => "intricate details, complex patterns, fine textures"
  | .extreme => "extremely detailed, hyper-detailed, every surface textured"

/-- `PromptConfig`: every selector optional. -/
structure PromptConfig where
  style : Option PStyle := none
  quality : Option PQuality := none
  lighting : Option PLighting := none
  material : Option PMaterial := none
  detailLevel : Option PDetail := none
  deriving DecidableEq, Repr

/-- `EnhancedPrompt` (selector fields as the strings the source stores). -/
structure EnhancedPrompt where
  original : String
  enhanced : String
  style : String
  quality : String
  lighting : String
  material : String
  detailLevel : String
  tokens : ℕ
  deriving DecidableEq, Repr

/-- Selector name as the source's string value. -/
def pStyleName : PStyle → String
  | .realistic => "realistic"
  | .artistic => "artistic"
  | .fantasy => "fantasy"
  | .cyberpunk => "cyberpunk"
  | .steampunk => "steampunk"
  | .minimalist => "minimalist"

/-- Selector name as the source's string value. -/
def pQualityName : PQuality → String
  | .low => "low"
  | .medium => "medium"
  | .high => "high"
  | .ultra => "ultra"

/-- Selector name as the source's string value. -/
def pLightingName : PLighting → String
  | .studio => "studio"
  | .natural => "natural"
  | .dramatic => "dramatic"
  | .soft => "soft"

/-- Selector name as the source's string value. -/
def pMaterialName : PMaterial → String
  | .fabric => "fabric"
  | .metal => "metal"
  | .ceramic => "ceramic"
  | .plastic => "plastic"
  | .leather => "leather"
  | .wood => "wood"

/-- Selector name as the source's string value. -/
def pDetailName : PDetail → String
  | .low => "low"
  | .medium => "medium"
  | .high => "high"
  | .extreme => "extreme"

/-- Drop leading whitespace characters. -/
def jsTrimLeft : List Char → List Char
  | [] => []
  | c :: cs => if c.isWhitespace then jsTrimLeft cs else c :: cs

/-- JavaScript `s.trim()`: strip whitespace from both ends. -/
def jsTrim (s : String) : String :=
  ⟨(jsTrimLeft (jsTrimLeft s.data).reverse).reverse⟩

/-- JavaScript `s.toLowerCase()` (per-character lowering). -/
def jsToLower (s : String) : String := ⟨s.data.map Char.toLower⟩

/-- Is `sub` a prefix of `hay` (character-wise)? -/
def listIsPrefix : List Char → List Char → Bool
  | [], _ => true
  | _ :: _, [] => false
  | a :: as, b :: bs => a = b && listIsPrefix as bs

/-- Does `hay` contain `sub` as a contiguous run (JavaScript
`hay.includes(sub)`)? -/
def listContainsSub (sub : List Char) : List Char → Bool
  | [] => sub.isEmpty
  | h :: t => listIsPrefix sub (h :: t) || listContainsSub sub t

/-- JavaScript `hay.includes(sub)` on strings. -/
def strIncludes (hay sub : String) : Bool := listContainsSub sub.toList hay.toList

/-- The denylist inside `validatePrompt`. -/
def inappropriateWords : List String := ["violence", "hate", "explicit"]

/-- `PromptProcessor.validatePrompt`: `none` when valid, otherwise the
error message the source would return (minLength 5, maxLength 500,
case-insensitive denylist match on the trimmed phrase). -/
def validatePrompt (prompt : String) : Option String :=
  if prompt = "" then some "Prompt must be a non-empty string"
  else
    let trimmed := jsTrim prompt
    if trimmed.length < 5 then some "Prompt must be at least 5 characters"
    else if 500 < trimmed.length then some "Prompt must be less than 500 characters"
    else if inappropriateWords.any (fun word => strIncludes (jsToLower trimmed) word) then
      some "Prompt contains inappropriate content"
    else none

/-- `PromptProcessor.estimateTokens`: `Math.ceil(text.length / 4)`. -/
def estimateTokens (text : String) : ℕ := (text.length + 3) / 4

/-- `PromptProcessor.enhancePrompt`: throws the validation error for an
invalid phrase, otherwise joins the trimmed phrase, the five selected
preset phrases, and the fixed suffix with a comma, dropping empty parts. -/
def enhancePrompt (prompt : String) (config : PromptConfig) : Except String EnhancedPrompt :=
  match validatePrompt prompt with
  | some err => Except.error err
  | none =>
      let style := config.style.getD PStyle.realistic
      let quality := config.quality.getD PQuality.high
      let lighting := config.lighting.getD PLighting.studio
      let material := config.material.getD PMaterial.metal
      let detailLevel := config.detailLevel.getD PDetail.high
      let parts := [jsTrim prompt,
        STYLE_PRESETS style,
        QUALITY_PRESETS quality,
        LIGHTING_PRESETS lighting,
        MATERIAL_PRESETS material,
        DETAIL_PRESETS detailLevel,
        "mask, face mask, wearable art"]
      let enhanced := String.intercalate ", " (parts.filter fun p => ¬(p = ""))
      Except.ok
        { original := prompt
          enhanced := enhanced
          style := pStyleName style
          quality := pQualityName quality
          lighting := pLightingName lighting
          material := pMaterialName material
          detailLevel := pDetailName detailLevel
          tokens := estimateTokens enhanced }

/-! ## Theorems -/

/-- C1: for every normalized point p with x,y in [0,1] and z in [-1,1] and
every faceScale s > 0, `worldToNormalized (normalizedToWorld p s) s` equals
p within 1e-9 tolerance on each component (here exactly, since the model's
arithmetic is exact). -/
theorem world_normalized_roundtrip (p : Landmark) (s : ℚ)
    (hx0 : 0 ≤ p.x) (hx1 : p.x ≤ 1) (hy0 : 0 ≤ p.y) (hy1 : p.y ≤ 1)
    (hz0 : -1 ≤ p.z) (hz1 : p.z ≤ 1) (hs : 0 < s) :
    |(worldToNormalized (normalizedToWorld p s) s).x - p.x| ≤ 1/1000000000 ∧
    |(worldToNormalized (normalizedToWorld p s) s).y - p.y| ≤ 1/1000000000 ∧
    |(worldToNormalized (normalizedToWorld p s) s).z - p.z| ≤ 1/1000000000 := by
  have hs' : s ≠ 0 := ne_of_gt hs
  have hx : (worldToNormalized (normalizedToWorld p s) s).x = p.x := by
    simp only [worldToNormalized, normalizedToWorld]
    field_simp
    ring
  have hy : (worldToNormalized (normalizedToWorld p s) s).y = p.y := by
    simp only [worldToNormalized, normalizedToWorld]
    field_simp
    ring
  have hz : (worldToNormalized (normalizedToWorld p s) s).z = p.z := by
    simp only [worldToNormalized, normalizedToWorld]
    field_simp
  refine ⟨?_, ?_, ?_⟩ <;> simp [hx, hy, hz]

/-- Witness for C1 at p = (1/3, 1/2, 1/4), s = 2. -/
theorem world_normalized_roundtrip_witness :
    |(worldToNormalized (normalizedToWorld ⟨1/3, 1/2, 1/4⟩ 2) 2).x - (1:ℚ)/3| ≤ 1/1000000000 ∧
    |(worldToNormalized (normalizedToWorld ⟨1/3, 1/2, 1/4⟩ 2) 2).y - (1:ℚ)/2| ≤ 1/1000000000 ∧
    |(worldToNormalized (normalizedToWorld ⟨1/3, 1/2, 1/4⟩ 2) 2).z - (1:ℚ)/4| ≤ 1/1000000000 :=
  world_normalized_roundtrip ⟨1/3, 1/2, 1/4⟩ 2 (by norm_num) (by norm_num) (by norm_num)
    (by norm_num) (by norm_num) (by norm_num) (by norm_num)

/-- C3: `validateLandmarks` returns true exactly for a non-empty sequence
in which every point has finite coordinates with x,y in [0,1] and z in
[-1,1]; so it returns false for the empty sequence, for any non-finite
(NaN or infinite) coordinate, and for any out-of-range coordinate. -/
theorem validateLandmarks_iff (lm : List RawLandmark) :
    validateLandmarks lm = true ↔ lm ≠ [] ∧ ∀ l ∈ lm, LandmarkInRange l := by
  unfold validateLandmarks
  rcases lm with _ | ⟨h, t⟩
  · simp
  · simp [List.all_eq_true, landmarkPointValid_iff]

set_option maxRecDepth 4000 in
/-- C4: `validateTriangles` is false whenever some listed index reaches the
landmark count; on the static `FACE_MESH_TRIANGLES` table it is false for
landmarkCount 10 and true for landmarkCount 468. -/
theorem validateTriangles_spec :
    (∀ (triangles : List ℤ) (landmarkCount : ℤ),
        (∃ i ∈ triangles, landmarkCount ≤ i) →
        validateTriangles triangles landmarkCount = false) ∧
    validateTriangles getFaceTriangles 10 = false ∧
    validateTriangles getFaceTriangles 468 = true := by
  refine ⟨?_, by decide, by decide⟩
  rintro ts c ⟨i, hi, hc⟩
  cases hall : validateTriangles ts c with
  | false => rfl
  | true =>
      exfalso
      have := (List.all_eq_true.mp hall) i hi
      simp only [Bool.and_eq_true, decide_eq_true_eq] at this
      omega

/-- Witness for C4's general clause at the singleton list [61] with
landmark count 10. -/
theorem validateTriangles_spec_witness :
    validateTriangles [61] 10 = false :=
  validateTriangles_spec.1 [61] 10 ⟨61, by decide, by decide⟩

/-- C10: on the empty landmark sequence the bounding box degenerates to
infinite bounds, yet `calculateOptimalFaceScale` returns exactly the
(finite) target size. -/
theorem calculateOptimalFaceScale_empty (t : ℚ) :
    (calculateFaceBoundingBox ([] : List Landmark)).minX = JSNum.inf ∧
    (calculateFaceBoundingBox ([] : List Landmark)).maxX = JSNum.negInf ∧
    (calculateFaceBoundingBox ([] : List Landmark)).width = JSNum.negInf ∧
    calculateOptimalFaceScale [] t = JSNum.fin t :=
  ⟨rfl, rfl, rfl, rfl⟩

/-- One `bboxStep` on an all-equal list is idempotent. -/
theorem bboxStep_idem (p : Landmark) :
    bboxStep (bboxStep bboxInit p) p = bboxStep bboxInit p := by
  simp [bboxStep, bboxInit, JSNum.jsMin, JSNum.jsMax]

/-- Folding `bboxStep` over a list of copies of p from the one-point
accumulator leaves the accumulator fixed. -/
theorem bboxFold_const (p : Landmark) (l : List Landmark) (hall : ∀ q ∈ l, q = p) :
    l.foldl bboxStep (bboxStep bboxInit p) = bboxStep bboxInit p := by
  induction l with
  | nil => rfl
  | cons a t ih =>
      have ha : a = p := hall a (List.mem_cons_self a t)
      rw [List.foldl_cons, ha, bboxStep_idem]
      exact ih fun q hq => hall q (List.mem_cons_of_mem a hq)

/-- C6 counterexample: two landmarks that differ only in z give a
bounding box with zero width and height; the code returns the target size
unchanged, while the claim's "otherwise" branch (targetSize divided by the
larger of width and height, a division by zero) gives Infinity. -/
theorem calculateOptimalFaceScale_z_counterexample :
    calculateOptimalFaceScale [⟨0, 0, 0⟩, ⟨0, 0, 1⟩] 2 = JSNum.fin 2 ∧
    JSNum.jsDiv (JSNum.fin 2)
      (JSNum.jsMax (calculateFaceBoundingBox [⟨0, 0, 0⟩, ⟨0, 0, 1⟩]).width
        (calculateFaceBoundingBox [⟨0, 0, 0⟩, ⟨0, 0, 1⟩]).height) = JSNum.inf ∧
    JSNum.fin 2 ≠ JSNum.inf ∧
    (⟨0, 0, 0⟩ : Landmark) ≠ ⟨0, 0, 1⟩ := by
  refine ⟨?_, ?_, by simp, by simp [Landmark.mk.injEq]⟩ <;>
    norm_num [calculateOptimalFaceScale, calculateFaceBoundingBox, bboxStep, bboxInit,
      JSNum.jsMin, JSNum.jsMax, JSNum.jsSub, JSNum.jsLt, JSNum.jsDiv, min_def, max_def]

/-- C6 amended: `calculateOptimalFaceScale` returns exactly targetSize when
all landmarks are equal (in particular the bounding-box width and height
are zero), and more generally returns targetSize / max(width, height) when
that maximum is a positive finite value and targetSize otherwise (the
non-positive case also covers landmarks differing only in z). -/
theorem calculateOptimalFaceScale_amended (lm : List Landmark) (t : ℚ) :
    ((∀ p ∈ lm, ∀ q ∈ lm, p = q) → calculateOptimalFaceScale lm t = JSNum.fin t) ∧
    (∀ m : ℚ,
      JSNum.jsMax (calculateFaceBoundingBox lm).width
        (calculateFaceBoundingBox lm).height = JSNum.fin m →
      (0 < m → calculateOptimalFaceScale lm t = JSNum.fin (t / m)) ∧
      (m ≤ 0 → calculateOptimalFaceScale lm t = JSNum.fin t)) := by
  constructor
  · intro hall
    rcases lm with _ | ⟨p, rest⟩
    · rfl
    · have hfold : (p :: rest).foldl bboxStep bboxInit = bboxStep bboxInit p := by
        rw [List.foldl_cons]
        exact bboxFold_const p rest fun q hq =>
          hall q (List.mem_cons_of_mem p hq) p (List.mem_cons_self p rest)
      unfold calculateOptimalFaceScale calculateFaceBoundingBox
      rw [hfold]
      simp [bboxStep, bboxInit, JSNum.jsMin, JSNum.jsMax, JSNum.jsSub, JSNum.jsLt]
  · intro m hm
    constructor
    · intro hpos
      simp only [calculateOptimalFaceScale]
      rw [hm]
      have hlt : JSNum.jsLt (JSNum.fin 0) (JSNum.fin m) = true := by
        simp [JSNum.jsLt, hpos]
      rw [if_pos hlt]
      simp [JSNum.jsDiv, ne_of_gt hpos]
    · intro hnonpos
      simp only [calculateOptimalFaceScale]
      rw [hm]
      have hlt : JSNum.jsLt (JSNum.fin 0) (JSNum.fin m) = false := by
        simp [JSNum.jsLt]
        exact hnonpos
      rw [if_neg (by simp [hlt])]

/-- Witness for C6 amended: all-equal landmarks give targetSize, and a
landmark pair of bounding-box width 1/2 gives targetSize / (1/2). -/
theorem calculateOptimalFaceScale_amended_witness :
    calculateOptimalFaceScale [⟨1/2, 1/2, 0⟩, ⟨1/2, 1/2, 0⟩] 2 = JSNum.fin 2 ∧
    calculateOptimalFaceScale [⟨0, 0, 0⟩, ⟨1/2, 0, 0⟩] 2 = JSNum.fin (2 / (1/2)) :=
  ⟨(calculateOptimalFaceScale_amended [⟨1/2, 1/2, 0⟩, ⟨1/2, 1/2, 0⟩] 2).1 (by simp),
   ((calculateOptimalFaceScale_amended [⟨0, 0, 0⟩, ⟨1/2, 0, 0⟩] 2).2 (1/2)
      (by norm_num [calculateFaceBoundingBox, bboxStep, bboxInit, JSNum.jsMin, JSNum.jsMax,
        JSNum.jsSub, min_def, max_def])).1 (by norm_num)⟩

/-- The mouth-ellipse radii emitted by `buildMaskPath`, for any landmark
list: the unfloored products of the corner distances with 0.35 / 0.45. -/
theorem buildMaskPath_ellipse_radii (lm : List Landmark) (W H : ℚ) :
    firstEllipseRadii (buildMaskPath lm W H) =
      some (((lm.getD 308 default).x * W - (lm.getD 78 default).x * W) * (35/100),
            ((lm.getD 14 default).y * H - (lm.getD 13 default).y * H) * (45/100)) := rfl

/-- `getD` on a long-enough `replicate` returns the replicated element. -/
theorem getD_replicate_of_lt {α : Type} [Inhabited α] (a : α) (i n : ℕ) (h : i < n) :
    (List.replicate n a).getD i default = a := by
  simp [List.getD_eq_getElem?_getD, List.getElem?_replicate_of_lt h]

/-- C5 counterexample: with all 468 landmarks at the same point (a tightly
closed mouth), the canvas-path builder's mouth ellipse has radii (0, 0) —
no ≈10px floor is applied in that variant, and the hole has zero area. -/
theorem mouth_ellipse_floor_counterexample :
    firstEllipseRadii (buildMaskPath (List.replicate 468 ⟨1/2, 1/2, 0⟩) 512 512) =
      some (0, 0) ∧
    ¬(10 ≤ (0 : ℚ)) := by
  constructor
  · rw [buildMaskPath_ellipse_radii]
    rw [getD_replicate_of_lt _ 308 468 (by omega), getD_replicate_of_lt _ 78 468 (by omega),
      getD_replicate_of_lt _ 14 468 (by omega), getD_replicate_of_lt _ 13 468 (by omega)]
    norm_num
  · norm_num

/-- C5 amended: only the raw-SVG mask-buffer variant floors the mouth
ellipse radii at 10 (so its hole never has zero area); the canvas-path
builder emits the unfloored radii
(mRight − mLeft)·0.35 and (mBottom − mTop)·0.45. -/
theorem mouth_ellipse_floor_amended (lm : List Landmark) (W H : ℚ) :
    10 ≤ (svgMouthEllipse lm W H).2.2.1 ∧
    10 ≤ (svgMouthEllipse lm W H).2.2.2 ∧
    firstEllipseRadii (buildMaskPath lm W H) =
      some (((lm.getD 308 default).x * W - (lm.getD 78 default).x * W) * (35/100),
            ((lm.getD 14 default).y * H - (lm.getD 13 default).y * H) * (45/100)) := by
  refine ⟨?_, ?_, buildMaskPath_ellipse_radii lm W H⟩
  · exact le_max_right _ _
  · exact le_max_right _ _

/-- `get?` on an in-bounds index is `some` of the `getD` value. -/
theorem get?_eq_some_getD {α : Type} [Inhabited α] (l : List α) (n : ℕ) (h : n < l.length) :
    l.get? n = some (l.getD n default) := by
  simp [List.get?_eq_getElem?, List.getD_eq_getElem?_getD, List.getElem?_eq_getElem h]

/-- When every index is in bounds, `svgEyePoints` is the plain map of each
index to its pixel coordinates. -/
theorem svgEyePoints_eq (indices : List ℕ) (lm : List Landmark) (W H : ℚ)
    (h : ∀ i ∈ indices, i < lm.length) :
    svgEyePoints indices lm W H =
      indices.map fun i => ((lm.getD i default).x * W, (lm.getD i default).y * H) := by
  unfold svgEyePoints
  apply List.map_congr_left
  intro i hi
  rw [get?_eq_some_getD lm i (h i hi)]

/-- C2: in the canvas-path builder the two eye-hole sub-paths visit the
pixels of the stored cutout indices in exactly reversed order, while the
raw-SVG mask-buffer variant emits the same pixels (at W = H = 512) in the
original stored order. -/
theorem eye_hole_vertex_order (lm : List Landmark) (W H : ℚ) (h468 : 468 ≤ lm.length) :
    (subpathPolys (buildMaskPath lm W H)).drop 1 =
      [LEFT_EYE.reverse.map (fun i => ((lm.getD i default).x * W, (lm.getD i default).y * H)),
       RIGHT_EYE.reverse.map (fun i => ((lm.getD i default).x * W, (lm.getD i default).y * H))] ∧
    svgEyePoints LEFT_EYE lm 512 512 =
      LEFT_EYE.map (fun i => ((lm.getD i default).x * 512, (lm.getD i default).y * 512)) ∧
    svgEyePoints RIGHT_EYE lm 512 512 =
      RIGHT_EYE.map (fun i => ((lm.getD i default).x * 512, (lm.getD i default).y * 512)) := by
  have hL : ∀ i ∈ LEFT_EYE, i < 468 := by decide
  have hR : ∀ i ∈ RIGHT_EYE, i < 468 := by decide
  refine ⟨rfl, ?_, ?_⟩
  · exact svgEyePoints_eq LEFT_EYE lm 512 512 fun i hi => lt_of_lt_of_le (hL i hi) h468
  · exact svgEyePoints_eq RIGHT_EYE lm 512 512 fun i hi => lt_of_lt_of_le (hR i hi) h468

set_option maxRecDepth 4000 in
/-- Witness for C2 on a concrete 468-landmark list. -/
theorem eye_hole_vertex_order_witness :
    468 ≤ (List.replicate 468 (⟨1/2, 1/3, 0⟩ : Landmark)).length ∧
    svgEyePoints LEFT_EYE (List.replicate 468 ⟨1/2, 1/3, 0⟩) 512 512 =
      LEFT_EYE.map (fun i =>
        (((List.replicate 468 (⟨1/2, 1/3, 0⟩ : Landmark)).getD i default).x * 512,
         ((List.replicate 468 (⟨1/2, 1/3, 0⟩ : Landmark)).getD i default).y * 512)) :=
  ⟨by simp,
   (eye_hole_vertex_order (List.replicate 468 ⟨1/2, 1/3, 0⟩) 512 512 (by simp)).2.1⟩

/-- C8 counterexample: a second generate request issued while the in-flight
flag is set does NOT fail when its key has a fresh cache entry — the cache
check precedes the single-flight check, so the cached response is returned
successfully. -/
theorem generate_second_request_counterexample :
    (GenState.mk [("p_undefined_undefined", 0, (42 : ℕ))] true).isGenerating = true ∧
    (generate (GenState.mk [("p_undefined_undefined", 0, (42 : ℕ))] true)
        ⟨"p", none, none⟩ 0 (Except.error "boom")).1 = Except.ok 42 :=
  ⟨rfl, rfl⟩

/-- C8 amended: while a generation is outstanding, a second request is
served from a fresh cache entry if one exists for its key; otherwise it
fails immediately with "Generation already in progress", leaving the
in-flight flag set and the cache unchanged except that the lookup may have
deleted an expired entry under the request's key; if the key is absent
entirely, the whole state is unchanged. -/
theorem generate_single_flight_amended {V : Type} (st : GenState V) (req : TexRequest)
    (now : ℤ) (ai : Except String V) (hgen : st.isGenerating = true) :
    (∀ v, (cacheGet st.cache (generateKey req) now).1 = some v →
      generate st req now ai =
        (Except.ok v, ⟨(cacheGet st.cache (generateKey req) now).2, true⟩)) ∧
    ((cacheGet st.cache (generateKey req) now).1 = none →
      generate st req now ai =
        (Except.error "Generation already in progress",
         ⟨(cacheGet st.cache (generateKey req) now).2, true⟩)) ∧
    (generateKey req ∉ st.cache.map (fun e => e.1) →
      generate st req now ai = (Except.error "Generation already in progress", st)) := by
  obtain ⟨cache, flag⟩ := st
  cases hgen
  have hmain : ∀ res : Option V × Cache V, cacheGet cache (generateKey req) now = res →
      (∀ v, res.1 = some v →
        generate ⟨cache, true⟩ req now ai = (Except.ok v, ⟨res.2, true⟩)) ∧
      (res.1 = none →
        generate ⟨cache, true⟩ req now ai =
          (Except.error "Generation already in progress", ⟨res.2, true⟩)) := by
    rintro ⟨v?, c'⟩ hres
    constructor
    · intro v hv
      simp only at hv
      subst hv
      simp [generate, hres]
    · intro hv
      simp only at hv
      subst hv
      simp [generate, hres]
  have h1 := hmain _ rfl
  refine ⟨h1.1, h1.2, ?_⟩
  intro habs
  have hfind : cache.find? (fun e => decide (e.1 = generateKey req)) = none := by
    rw [List.find?_eq_none]
    intro e he
    simp only [decide_eq_true_eq]
    intro heq
    exact habs (List.mem_map.mpr ⟨e, he, heq⟩)
  have hres : cacheGet cache (generateKey req) now = (none, cache) := by
    simp [cacheGet, hfind]
  have := (hmain _ hres).2 rfl
  simpa using this

/-- Witness for C8 amended: empty cache, flag set — the call fails and the
state is untouched. -/
theorem generate_single_flight_amended_witness :
    generate (GenState.mk ([] : Cache ℕ) true) ⟨"p", none, none⟩ 0 (Except.error "x") =
      (Except.error "Generation already in progress", GenState.mk [] true) :=
  (generate_single_flight_amended ⟨[], true⟩ ⟨"p", none, none⟩ 0
    (Except.error "x") rfl).2.2 (by simp)

/-- Every style preset phrase is non-empty. -/
theorem STYLE_PRESETS_ne_empty (s : PStyle) : STYLE_PRESETS s ≠ "" := by
  cases s <;> decide

/-- Every quality preset phrase is non-empty. -/
theorem QUALITY_PRESETS_ne_empty (q : PQuality) : QUALITY_PRESETS q ≠ "" := by
  cases q <;> decide

/-- Every lighting preset phrase is non-empty. -/
theorem LIGHTING_PRESETS_ne_empty (l : PLighting) : LIGHTING_PRESETS l ≠ "" := by
  cases l <;> decide

/-- Every material preset phrase is non-empty. -/
theorem MATERIAL_PRESETS_ne_empty (m : PMaterial) : MATERIAL_PRESETS m ≠ "" := by
  cases m <;> decide

/-- Every detail preset phrase is non-empty. -/
theorem DETAIL_PRESETS_ne_empty (d : PDetail) : DETAIL_PRESETS d ≠ "" := by
  cases d <;> decide

set_option maxRecDepth 8000 in
/-- C9 counterexample: on the valid phrase "golden skull pattern" with the
default config, the enhanced prompt is the comma-join of the six claimed
parts PLUS the fixed suffix "mask, face mask, wearable art" — it is not
equal to the six-part join the claim describes. -/
theorem enhancePrompt_suffix_counterexample :
    ((enhancePrompt "golden skull pattern" {}).toOption.map fun r => r.enhanced) =
      some (String.intercalate ", " ["golden skull pattern",
        STYLE_PRESETS PStyle.realistic, QUALITY_PRESETS PQuality.high,
        LIGHTING_PRESETS PLighting.studio, MATERIAL_PRESETS PMaterial.metal,
        DETAIL_PRESETS PDetail.high, "mask, face mask, wearable art"]) ∧
    ((enhancePrompt "golden skull pattern" {}).toOption.map fun r => r.enhanced) ≠
      some (String.intercalate ", " ["golden skull pattern",
        STYLE_PRESETS PStyle.realistic, QUALITY_PRESETS PQuality.high,
        LIGHTING_PRESETS PLighting.studio, MATERIAL_PRESETS PMaterial.metal,
        DETAIL_PRESETS PDetail.high]) := by
  constructor
  · decide
  · decide

/-- C9 amended: for every phrase that is valid (trimmed length within
[5, 500] and no denylisted term), `enhancePrompt` returns the comma-join of
the trimmed phrase, the five preset phrases selected by the config
(defaults realistic/high/studio/metal/high), AND the fixed suffix
"mask, face mask, wearable art"; for every invalid phrase it throws the
corresponding descriptive message. -/
theorem enhancePrompt_amended (prompt : String) (config : PromptConfig) :
    (5 ≤ (jsTrim prompt).length → (jsTrim prompt).length ≤ 500 →
      (∀ w ∈ inappropriateWords, strIncludes (jsToLower (jsTrim prompt)) w = false) →
      enhancePrompt prompt config = Except.ok
        { original := prompt
          enhanced := String.intercalate ", " [jsTrim prompt,
            STYLE_PRESETS (config.style.getD PStyle.realistic),
            QUALITY_PRESETS (config.quality.getD PQuality.high),
            LIGHTING_PRESETS (config.lighting.getD PLighting.studio),
            MATERIAL_PRESETS (config.material.getD PMaterial.metal),
            DETAIL_PRESETS (config.detailLevel.getD PDetail.high),
            "mask, face mask, wearable art"]
          style := pStyleName (config.style.getD PStyle.realistic)
          quality := pQualityName (config.quality.getD PQuality.high)
          lighting := pLightingName (config.lighting.getD PLighting.studio)
          material := pMaterialName (config.material.getD PMaterial.metal)
          detailLevel := pDetailName (config.detailLevel.getD PDetail.high)
          tokens := estimateTokens (String.intercalate ", " [jsTrim prompt,
            STYLE_PRESETS (config.style.getD PStyle.realistic),
            QUALITY_PRESETS (config.quality.getD PQuality.high),
            LIGHTING_PRESETS (config.lighting.getD PLighting.studio),
            MATERIAL_PRESETS (config.material.getD PMaterial.metal),
            DETAIL_PRESETS (config.detailLevel.getD PDetail.high),
            "mask, face mask, wearable art"]) }) ∧
    (∀ err, validatePrompt prompt = some err →
      enhancePrompt prompt config = Except.error err) := by
  constructor
  · intro hmin hmax hden
    have hne : ¬(prompt = "") := by
      intro hp
      rw [hp] at hmin
      exact absurd hmin (by decide)
    have hany : (inappropriateWords.any fun word => strIncludes (jsToLower (jsTrim prompt)) word)
        = false := by
      rw [List.any_eq_false]
      intro w hw
      simp [hden w hw]
    have hval : validatePrompt prompt = none := by
      unfold validatePrompt
      rw [if_neg hne, if_neg (by omega), if_neg (by omega), if_neg (by simp [hany])]
    have htrim : ¬(jsTrim prompt = "") := by
      intro h
      rw [h] at hmin
      exact absurd hmin (by decide)
    simp only [enhancePrompt, hval]
    simp [List.filter_cons, htrim,
      STYLE_PRESETS_ne_empty, QUALITY_PRESETS_ne_empty, LIGHTING_PRESETS_ne_empty,
      MATERIAL_PRESETS_ne_empty, DETAIL_PRESETS_ne_empty]
  · intro err herr
    simp [enhancePrompt, herr]

/-- Witness for C9 amended at "golden skull pattern" with the default
config. -/
theorem enhancePrompt_amended_witness :
    enhancePrompt "golden skull pattern" {} = Except.ok
      { original := "golden skull pattern"
        enhanced := String.intercalate ", " [jsTrim "golden skull pattern",
          STYLE_PRESETS PStyle.realistic, QUALITY_PRESETS PQuality.high,
          LIGHTING_PRESETS PLighting.studio, MATERIAL_PRESETS PMaterial.metal,
          DETAIL_PRESETS PDetail.high, "mask, face mask, wearable art"]
        style := pStyleName PStyle.realistic
        quality := pQualityName PQuality.high
        lighting := pLightingName PLighting.studio
        material := pMaterialName PMaterial.metal
        detailLevel := pDetailName PDetail.high
        tokens := estimateTokens (String.intercalate ", " [jsTrim "golden skull pattern",
          STYLE_PRESETS PStyle.realistic, QUALITY_PRESETS PQuality.high,
          LIGHTING_PRESETS PLighting.studio, MATERIAL_PRESETS PMaterial.metal,
          DETAIL_PRESETS PDetail.high, "mask, face mask, wearable art"]) } :=
  (enhancePrompt_amended "golden skull pattern" {}).1 (by decide) (by decide) (by decide)

/-- `Map.set` with a key not yet present appends the new entry. -/
theorem mapSet_fresh {V : Type} (c : Cache V) (key : String) (ts : ℤ) (v : V)
    (h : key ∉ c.map fun e => e.1) :
    mapSet c key ts v = c ++ [(key, ts, v)] := by
  unfold mapSet
  rw [if_neg]
  simp only [List.any_eq_true, decide_eq_true_eq, not_exists, not_and]
  intro e he heq
  exact h (List.mem_map.mpr ⟨e, he, heq⟩)

/-- `Map.set` grows the cache by at most one entry. -/
theorem mapSet_length_le {V : Type} (c : Cache V) (key : String) (ts : ℤ) (v : V) :
    (mapSet c key ts v).length ≤ c.length + 1 := by
  unfold mapSet
  split
  · simp
  · simp

/-- Deleting a present key strictly shrinks the cache. -/
theorem mapDelete_length_lt {V : Type} (c : Cache V) (k : String)
    (hk : k ∈ c.map fun e => e.1) :
    (mapDelete c k).length < c.length := by
  induction c with
  | nil => simp at hk
  | cons a t ih =>
      unfold mapDelete at *
      rw [List.filter_cons]
      by_cases ha : a.1 = k
      · have hle := List.length_filter_le (fun e : String × ℤ × V => decide ¬(e.1 = k)) t
        have hcond : (decide ¬(a.1 = k)) = false := by simp [ha]
        rw [hcond]
        simp only [Bool.false_eq_true, if_false, List.length_cons]
        omega
      · have hk' : k ∈ t.map fun e => e.1 := by
          rcases List.mem_map.mp hk with ⟨e, he, heq⟩
          rcases List.mem_cons.mp he with rfl | he'
          · exact absurd heq ha
          · exact List.mem_map.mpr ⟨e, he', heq⟩
        have hcond : (decide ¬(a.1 = k)) = true := by simp [ha]
        rw [hcond]
        simp only [if_true, List.length_cons]
        exact Nat.succ_lt_succ (ih hk')

/-- The entry picked by the eviction fold is the start value or a list
element. -/
theorem foldl_pick_mem {V : Type} (rest : List (String × ℤ × V)) (b : String × ℤ × V) :
    rest.foldl (fun best e => if e.2.1 < best.2.1 then e else best) b = b ∨
    rest.foldl (fun best e => if e.2.1 < best.2.1 then e else best) b ∈ rest := by
  induction rest generalizing b with
  | nil => left; rfl
  | cons a t ih =>
      rw [List.foldl_cons]
      rcases ih (if a.2.1 < b.2.1 then a else b) with h | h
      · rw [h]
        split
        · right
          exact List.mem_cons_self a t
        · left
          rfl
      · right
        exact List.mem_cons_of_mem a h

/-- On a non-empty cache, `oldestKey` is the key of some entry. -/
theorem oldestKey_mem {V : Type} (e0 : String × ℤ × V) (rest : List (String × ℤ × V)) :
    oldestKey (e0 :: rest) ∈ (e0 :: rest).map fun e => e.1 := by
  simp only [oldestKey]
  rcases foldl_pick_mem rest e0 with h | h
  · rw [h]
    exact List.mem_map.mpr ⟨e0, List.mem_cons_self e0 rest, rfl⟩
  · exact List.mem_map.mpr ⟨_, List.mem_cons_of_mem e0 h, rfl⟩

/-- `TextureCache.set` keeps the cache within its maximum size. -/
theorem cacheSet_length_le {V : Type} (c : Cache V) (key : String) (ts : ℤ) (v : V)
    (h : c.length ≤ cacheMaxSize) :
    (cacheSet c key ts v).length ≤ cacheMaxSize := by
  unfold cacheSet
  split
  · rename_i hfull
    rcases c with _ | ⟨e0, rest⟩
    · simp [cacheMaxSize] at hfull
    · have hdel := mapDelete_length_lt (e0 :: rest) (oldestKey (e0 :: rest))
        (oldestKey_mem e0 rest)
      have hms := mapSet_length_le (mapDelete (e0 :: rest) (oldestKey (e0 :: rest))) key ts v
      omega
  · rename_i hsmall
    have hms := mapSet_length_le c key ts v
    simp only [not_le] at hsmall
    omega

/-- Folding any insertion sequence through `cacheSet` keeps the cache
within its maximum size. -/
theorem cacheSetAll_length_le {V : Type} (ops : List (String × ℤ × V)) (c : Cache V)
    (h : c.length ≤ cacheMaxSize) :
    (cacheSetAll c ops).length ≤ cacheMaxSize := by
  induction ops generalizing c with
  | nil => exact h
  | cons e t ih =>
      unfold cacheSetAll at *
      rw [List.foldl_cons]
      exact ih _ (cacheSet_length_le c e.1 e.2.1 e.2.2 h)

/-- Inserting a fresh key into a non-full cache appends the entry. -/
theorem cacheSet_fresh_small {V : Type} (c : Cache V) (e : String × ℤ × V)
    (h1 : c.length < cacheMaxSize) (h2 : e.1 ∉ c.map fun x => x.1) :
    cacheSet c e.1 e.2.1 e.2.2 = c ++ [e] := by
  unfold cacheSet
  rw [if_neg (by omega), mapSet_fresh c e.1 e.2.1 e.2.2 h2]

/-- Inserting distinct fresh keys into a cache with room for all of them
just appends them in order. -/
theorem cacheSetAll_fresh {V : Type} (ops : List (String × ℤ × V)) (c : Cache V)
    (hlen : c.length + ops.length ≤ cacheMaxSize)
    (hnd : ((c ++ ops).map fun e => e.1).Nodup) :
    cacheSetAll c ops = c ++ ops := by
  induction ops generalizing c with
  | nil => simp [cacheSetAll]
  | cons e t ih =>
      have hfresh : e.1 ∉ c.map fun x => x.1 := by
        rw [List.map_append, List.nodup_append] at hnd
        intro hmem
        exact hnd.2.2 hmem (by simp)
      have hsmall : c.length < cacheMaxSize := by
        simp only [List.length_cons] at hlen
        omega
      unfold cacheSetAll at *
      rw [List.foldl_cons, cacheSet_fresh_small c e hsmall hfresh]
      have hlen' : (c ++ [e]).length + t.length ≤ cacheMaxSize := by
        simp only [List.length_append, List.length_cons, List.length_nil] at *
        omega
      have hnd' : (((c ++ [e]) ++ t).map fun x => x.1).Nodup := by
        rw [List.append_assoc]
        simpa using hnd
      rw [ih (c ++ [e]) hlen' hnd']
      simp

/-- The eviction fold returns its start value when that value's timestamp
is minimal. -/
theorem foldl_pick_of_min {V : Type} (rest : List (String × ℤ × V)) (b : String × ℤ × V)
    (h : ∀ e ∈ rest, b.2.1 ≤ e.2.1) :
    rest.foldl (fun best e => if e.2.1 < best.2.1 then e else best) b = b := by
  induction rest with
  | nil => rfl
  | cons a t ih =>
      rw [List.foldl_cons, if_neg (not_lt.mpr (h a (List.mem_cons_self a t)))]
      exact ih fun e he => h e (List.mem_cons_of_mem a he)

/-- With nondecreasing timestamps the evicted key is the head's (the
stable sort keeps the earliest-inserted entry first among ties). -/
theorem oldestKey_head {V : Type} (e0 : String × ℤ × V) (rest : List (String × ℤ × V))
    (h : ∀ e ∈ rest, e0.2.1 ≤ e.2.1) :
    oldestKey (e0 :: rest) = e0.1 := by
  simp only [oldestKey]
  rw [foldl_pick_of_min rest e0 h]

/-- Deleting the head's key from a cache whose other keys differ removes
exactly the head. -/
theorem mapDelete_cons_self {V : Type} (e0 : String × ℤ × V) (rest : List (String × ℤ × V))
    (h : e0.1 ∉ rest.map fun e => e.1) :
    mapDelete (e0 :: rest) e0.1 = rest := by
  unfold mapDelete
  rw [List.filter_cons]
  have hcond : (decide ¬(e0.1 = e0.1)) = false := by simp
  rw [hcond]
  simp only [Bool.false_eq_true, if_false]
  rw [List.filter_eq_self]
  intro e he
  simp only [decide_not, Bool.not_eq_true', decide_eq_false_iff_not]
  intro heq
  exact h (List.mem_map.mpr ⟨e, he, heq⟩)

/-- C7: the texture cache never exceeds 20 entries, and inserting 21
distinct keys (with clock-ordered timestamps, as `Date.now()` produces)
into an empty cache leaves exactly 20 entries with the first-inserted key
evicted. -/
theorem texture_cache_bounded_eviction {V : Type} (ops : List (String × ℤ × V))
    (e0 : String × ℤ × V) (rest : List (String × ℤ × V))
    (hlen : rest.length = 20)
    (hnd : ((e0 :: rest).map fun e => e.1).Nodup)
    (hmono : List.Chain' (fun a b : String × ℤ × V => a.2.1 ≤ b.2.1) (e0 :: rest)) :
    (cacheSetAll [] ops).length ≤ 20 ∧
    (cacheSetAll [] (e0 :: rest)).length = 20 ∧
    e0.1 ∉ (cacheSetAll [] (e0 :: rest)).map fun e => e.1 := by
  refine ⟨cacheSetAll_length_le ops [] (by simp [cacheMaxSize]), ?_⟩
  rcases List.eq_nil_or_concat rest with rfl | ⟨front, last, hco⟩
  · simp at hlen
  · subst hco
    rw [List.concat_eq_append] at hlen hnd hmono ⊢
    have hfrontlen : front.length = 19 := by
      simp only [List.length_append, List.length_cons, List.length_nil] at hlen
      omega
    haveI : IsTrans (String × ℤ × V) (fun a b => a.2.1 ≤ b.2.1) :=
      ⟨fun _ _ _ hab hbc => le_trans hab hbc⟩
    rw [List.chain'_iff_pairwise] at hmono
    have hmins : ∀ e ∈ front, e0.2.1 ≤ e.2.1 := fun e he =>
      (List.pairwise_cons.mp hmono).1 e (by simp [he])
    have hnd' : ((e0 :: front).map (fun e => e.1) ++ [last].map fun e => e.1).Nodup := by
      rw [← List.map_append]
      simpa using hnd
    have hnd20 : ((e0 :: front).map fun e => e.1).Nodup := (List.nodup_append.mp hnd').1
    have hheadfresh : e0.1 ∉ front.map fun e => e.1 := by
      rw [List.map_cons] at hnd20
      exact (List.nodup_cons.mp hnd20).1
    have hlastfresh : last.1 ∉ front.map fun e => e.1 := by
      intro hmem
      have h1 : last.1 ∈ (e0 :: front).map fun e => e.1 := by
        rw [List.map_cons]
        exact List.mem_cons_of_mem _ hmem
      have h2 : last.1 ∈ [last].map fun e => e.1 := by simp
      exact (List.nodup_append.mp hnd').2.2 h1 h2
    have hsplit : cacheSetAll ([] : Cache V) (e0 :: (front ++ [last])) =
        cacheSetAll (cacheSetAll [] (e0 :: front)) [last] := by
      unfold cacheSetAll
      rw [show e0 :: (front ++ [last]) = (e0 :: front) ++ [last] from rfl, List.foldl_append]
    have hfill : cacheSetAll ([] : Cache V) (e0 :: front) = e0 :: front :=
      cacheSetAll_fresh _ []
        (by simp [cacheMaxSize, hfrontlen])
        (by simpa using hnd20)
    have hfinal : cacheSetAll (e0 :: front) [last] = front ++ [last] := by
      unfold cacheSetAll
      rw [List.foldl_cons, List.foldl_nil]
      unfold cacheSet
      rw [if_pos (by simp [cacheMaxSize, hfrontlen])]
      rw [oldestKey_head e0 front hmins, mapDelete_cons_self e0 front hheadfresh,
        mapSet_fresh front last.1 last.2.1 last.2.2 hlastfresh]
    rw [hsplit, hfill, hfinal]
    constructor
    · simp [hfrontlen]
    · intro hmem
      rw [List.map_append] at hmem
      rcases List.mem_append.mp hmem with hm | hm
      · exact hheadfresh hm
      · have heq : e0.1 = last.1 := by simpa using hm
        have h1 : e0.1 ∈ (e0 :: front).map fun e => e.1 := by simp
        have h2 : e0.1 ∈ [last].map fun e => e.1 := by simp [heq]
        exact (List.nodup_append.mp hnd').2.2 h1 h2

/-- Witness for C7: inserting the 21 concrete keys k00…k20 with timestamps
0…20 leaves 20 entries and evicts k00. -/
theorem texture_cache_bounded_eviction_witness :
    (cacheSetAll ([] : Cache ℕ)
      [("k00", 0, 0), ("k01", 1, 0), ("k02", 2, 0), ("k03", 3, 0), ("k04", 4, 0),
       ("k05", 5, 0), ("k06", 6, 0), ("k07", 7, 0), ("k08", 8, 0), ("k09", 9, 0),
       ("k10", 10, 0), ("k11", 11, 0), ("k12", 12, 0), ("k13", 13, 0), ("k14", 14, 0),
       ("k15", 15, 0), ("k16", 16, 0), ("k17", 17, 0), ("k18", 18, 0), ("k19", 19, 0),
       ("k20", 20, 0)]).length = 20 ∧
    "k00" ∉ (cacheSetAll ([] : Cache ℕ)
      [("k00", 0, 0), ("k01", 1, 0), ("k02", 2, 0), ("k03", 3, 0), ("k04", 4, 0),
       ("k05", 5, 0), ("k06", 6, 0), ("k07", 7, 0), ("k08", 8, 0), ("k09", 9, 0),
       ("k10", 10, 0), ("k11", 11, 0), ("k12", 12, 0), ("k13", 13, 0), ("k14", 14, 0),
       ("k15", 15, 0), ("k16", 16, 0), ("k17", 17, 0), ("k18", 18, 0), ("k19", 19, 0),
       ("k20", 20, 0)]).map fun e => e.1 :=
  (texture_cache_bounded_eviction [] ("k00", 0, 0)
    [("k01", 1, 0), ("k02", 2, 0), ("k03", 3, 0), ("k04", 4, 0),
     ("k05", 5, 0), ("k06", 6, 0), ("k07", 7, 0), ("k08", 8, 0), ("k09", 9, 0),
     ("k10", 10, 0), ("k11", 11, 0), ("k12", 12, 0), ("k13", 13, 0), ("k14", 14, 0),
     ("k15", 15, 0), ("k16", 16, 0), ("k17", 17, 0), ("k18", 18, 0), ("k19", 19, 0),
     ("k20", 20, 0)] (by decide) (by decide) (by norm_num [List.chain'_cons])).2

end SlotcartelMask
